import Mathlib

/-!
Verification of `zero/bool.go`, a nullable boolean type (`zero.Bool`, wrapping
`sql.NullBool`) with JSON/text marshalling, string parsing constructors and a
three-valued boolean algebra.

The Go type `zero.Bool` is a plain two-field record `{Bool : bool, Valid : bool}`.
Pointer-receiver methods are embedded as functions returning the updated record;
`([]byte, error)` results become `Except String` values; the generic JSON tree
produced by `encoding/json` into `interface{}` is embedded as the inductive
`Json`, and a call to `json.Unmarshal(data, &v)` is represented by its outcome,
an `Except String Json` (a parse error or the decoded tree).
-/

/-- Alias for `Bool` so that record fields can keep the Go field names
`Bool` and `Valid` of `sql.NullBool`. -/
abbrev GoBool := Bool

/-- The Go struct `zero.Bool` (embedding `sql.NullBool`): fields `Bool` and `Valid`. -/
structure ZBool where
  Bool : GoBool
  Valid : GoBool
  deriving DecidableEq, Repr

/-- `func NewBool(b bool, valid bool) Bool` -/
def NewBool (b : GoBool) (valid : GoBool) : ZBool :=
  { Bool := b, Valid := valid }

/-- `func BoolFrom(b bool) Bool` -/
def BoolFrom (b : GoBool) : ZBool :=
  NewBool b true

/-- `func BoolFromPtr(b *bool) Bool`; a Go `*bool` argument is embedded as `Option Bool`. -/
def BoolFromPtr (b : Option GoBool) : ZBool :=
  match b with
  | none => NewBool false false
  | some x => NewBool x true

/-- `func NewBoolFromString(s string, valid bool) Bool` -/
def NewBoolFromString (s : String) (valid : GoBool) : ZBool :=
  if valid then
    if s = "" then NewBool false false
    else if s = "1" ∨ s = "true" then NewBool true true
    else if s = "0" ∨ s = "false" then NewBool false true
    else NewBool false false
  else NewBool false false

/-- `func BoolFromString(s string) Bool` -/
def BoolFromString (s : String) : ZBool :=
  if s = "" then NewBool false true
  else if s = "1" ∨ s = "true" ∨ s = "True" ∨ s = "TRUE" then NewBool true true
  else if s = "0" ∨ s = "false" ∨ s = "False" ∨ s = "FALSE" then NewBool false true
  else NewBool false false

/-- `func BoolFromStringExist(s string, b bool) Bool` -/
def BoolFromStringExist (s : String) (b : GoBool) : ZBool :=
  if s = "" ∨ b = false then NewBool false true
  else NewBool true true

/-- The generic JSON tree that `json.Unmarshal(data, &v)` with `v interface{}`
produces: Go maps JSON numbers to `float64`, strings to `string`, arrays to
`[]interface{}`, objects to `map[string]interface{}` (embedded here as an
association list in input order), booleans to `bool` and `null` to `nil`. -/
inductive Json where
  | null : Json
  | bool : GoBool → Json
  | num : Rat → Json
  | str : String → Json
  | arr : List Json → Json
  | obj : List (String × Json) → Json

/-- `reflect.TypeOf(v).Name()` for the dynamic Go type held by `v interface{}`
after generic JSON decoding: the predeclared types `bool`, `float64`, `string`
have their own names, while the unnamed composite types `[]interface{}` and
`map[string]interface{}` have an empty `Name()`. (`nil` never reaches this
call in `UnmarshalJSON`.) -/
def reflectTypeName : Json → String
  | Json.null => ""
  | Json.bool _ => "bool"
  | Json.num _ => "float64"
  | Json.str _ => "string"
  | Json.arr _ => ""
  | Json.obj _ => ""

/-- `err == nil` for an embedded Go error value. -/
def errIsNil (e : Except String Unit) : GoBool :=
  match e with
  | Except.ok _ => true
  | Except.error _ => false

/-- ASCII case-insensitive comparison of two characters, by code point
(`strings.EqualFold` restricted to ASCII, which covers the field names
`Bool` and `Valid`). -/
def chEqFold (a : Char) (b : Char) : Bool :=
  let x := a.toNat
  let y := b.toNat
  let lx := if 65 ≤ x && x ≤ 90 then x + 32 else x
  let ly := if 65 ≤ y && y ≤ 90 then y + 32 else y
  lx == ly

/-- ASCII case-insensitive equality on character lists. -/
def eqFoldChars : List Char → List Char → Bool
  | [], [] => true
  | c :: cs, d :: ds => chEqFold c d && eqFoldChars cs ds
  | _, _ => false

/-- ASCII case-insensitive string equality, the key-to-field matching rule of
`encoding/json` (exact match is a special case; `NullBool` has no two fields
that fold to the same name, so fold-equality alone is the Go behaviour). -/
def eqFold (a : String) (b : String) : Bool :=
  eqFoldChars a.data b.data

/-- Go's `encoding/json` keeps the first decoding error it saves and keeps
decoding the remaining fields. -/
def saveError (old : Except String Unit) (new : Except String Unit) : Except String Unit :=
  match old with
  | Except.error _ => old
  | Except.ok _ => new

/-- `json.Unmarshal(data, &b.NullBool)` on an object node: `encoding/json`
walks the object's keys in input order, matches each against the struct
fields `Bool` and `Valid` (exact or ASCII case-insensitive), requires a JSON
boolean for a matched field (a JSON `null` is a no-op, any other kind saves a
`json: cannot unmarshal ...` error and decoding continues), and ignores
unknown keys. -/
def unmarshalNullBool (fields : List (String × Json)) (b : ZBool) :
    Except String Unit × ZBool :=
  fields.foldl
    (fun acc kv =>
      let err := acc.1
      let b := acc.2
      if eqFold kv.1 "Bool" then
        match kv.2 with
        | Json.bool x => (err, { b with Bool := x })
        | Json.null => (err, b)
        | v =>
            (saveError err (Except.error
              ("json: cannot unmarshal " ++ reflectTypeName v ++
               " into Go struct field NullBool.Bool of type bool")), b)
      else if eqFold kv.1 "Valid" then
        match kv.2 with
        | Json.bool x => (err, { b with Valid := x })
        | Json.null => (err, b)
        | v =>
            (saveError err (Except.error
              ("json: cannot unmarshal " ++ reflectTypeName v ++
               " into Go struct field NullBool.Valid of type bool")), b)
      else (err, b))
    (Except.ok (), b)

/-- `func (b *Bool) UnmarshalJSON(data []byte) error`. The first argument is
the outcome of the library call `json.Unmarshal(data, &v)` on the raw bytes:
`Except.error e` when the bytes are not syntactically valid JSON (the method
returns that error before touching the receiver), `Except.ok v` otherwise.
The result pairs the returned `error` with the updated receiver. -/
def ZBool.UnmarshalJSON (parsed : Except String Json) (b : ZBool) :
    Except String Unit × ZBool :=
  match parsed with
  | Except.error e => (Except.error e, b)
  | Except.ok Json.null => (Except.ok (), { b with Valid := false })
  | Except.ok v =>
      let step : Except String Unit × ZBool :=
        match v with
        | Json.bool x => (Except.ok (), { b with Bool := x })
        | Json.obj fields => unmarshalNullBool fields b
        | w =>
            (Except.error
              ("json: cannot unmarshal " ++ reflectTypeName w ++
               " into Go value of type zero.Bool"), b)
      (step.1, { step.2 with Valid := errIsNil step.1 && step.2.Bool })

/-- `func (b *Bool) UnmarshalText(text []byte) error`; the `[]byte` argument
is embedded as the string `str := string(text)`. -/
def ZBool.UnmarshalText (text : String) (b : ZBool) :
    Except String Unit × ZBool :=
  let str := text
  if str = "" ∨ str = "null" then
    (Except.ok (), { b with Valid := false })
  else if str = "true" then
    let b := { b with Bool := true }
    (Except.ok (), { b with Valid := b.Bool })
  else if str = "false" then
    let b := { b with Bool := false }
    (Except.ok (), { b with Valid := b.Bool })
  else
    (Except.error ("invalid input:" ++ str), { b with Valid := false })

/-- `func (b Bool) MarshalJSON() ([]byte, error)`; the byte slice is embedded
as a string. -/
def ZBool.MarshalJSON (b : ZBool) : Except String String :=
  if !b.Valid || !b.Bool then Except.ok "false"
  else Except.ok "true"

/-- `func (b Bool) MarshalText() ([]byte, error)` -/
def ZBool.MarshalText (b : ZBool) : Except String String :=
  if !b.Valid || !b.Bool then Except.ok "false"
  else Except.ok "true"

/-- `func (b *Bool) SetValid(v bool)` -/
def ZBool.SetValid (b : ZBool) (v : GoBool) : ZBool :=
  { b with Bool := v, Valid := true }

/-- `func (b Bool) Ptr() *bool` -/
def ZBool.Ptr (b : ZBool) : Option GoBool :=
  if !b.Valid then none
  else some b.Bool

/-- `func (b Bool) IsZero() bool` -/
def ZBool.IsZero (b : ZBool) : GoBool :=
  !b.Valid || !b.Bool

/-- `func (s *Bool) OverwriteWithIfValid(st bool, v bool)` -/
def ZBool.OverwriteWithIfValid (s : ZBool) (st : GoBool) (v : GoBool) : ZBool :=
  if v then { s with Bool := st, Valid := v }
  else s

/-- `func (s Bool) AND(other Bool) Bool` -/
def ZBool.AND (s : ZBool) (other : ZBool) : ZBool :=
  let result : ZBool := { Bool := false, Valid := false }
  if s.Valid && other.Valid then
    { result with Bool := s.Bool && other.Bool, Valid := true }
  else
    { result with Valid := false }

/-- `func (s Bool) OR(other Bool) Bool` -/
def ZBool.OR (s : ZBool) (other : ZBool) : ZBool :=
  let result : ZBool := { Bool := false, Valid := false }
  if s.Valid && other.Valid then
    { result with Bool := s.Bool || other.Bool, Valid := true }
  else
    { result with Valid := false }

/-- `func (s *Bool) NON()` -/
def ZBool.NON (s : ZBool) : ZBool :=
  if s.Valid then { s with Bool := !s.Bool }
  else s

/-- `func (s Bool) XOR(other Bool) Bool` -/
def ZBool.XOR (s : ZBool) (other : ZBool) : ZBool :=
  let result : ZBool := { Bool := false, Valid := false }
  let x := s.Bool
  let y := other.Bool
  if s.Valid && other.Valid then
    { result with Bool := (x || y) && !(x && y), Valid := true }
  else
    { result with Valid := false }

/-- The `reflect.Kind` names of Go's integer kinds, used to make "names an
integer-like kind" precise. -/
def goIntegerKindNames : List String :=
  ["int", "int8", "int16", "int32", "int64",
   "uint", "uint8", "uint16", "uint32", "uint64", "uintptr", "integer"]

/-- C1: for every `Bool` value `b`, `MarshalJSON` and `MarshalText` both
succeed, both return exactly `false` when `b.Valid` is false or `b.Bool` is
false and exactly `true` otherwise, and neither ever returns a `null` token. -/
theorem C1_marshal_collapses_null_to_false (b : ZBool) :
    b.MarshalJSON = Except.ok (if !b.Valid || !b.Bool then "false" else "true") ∧
    b.MarshalText = Except.ok (if !b.Valid || !b.Bool then "false" else "true") ∧
    b.MarshalJSON ≠ Except.ok "null" ∧
    b.MarshalText ≠ Except.ok "null" := by
  rcases b with ⟨x, v⟩
  cases x <;> cases v <;>
    exact ⟨rfl, rfl, fun h => by exact absurd (Except.ok.inj h) (by decide),
           fun h => by exact absurd (Except.ok.inj h) (by decide)⟩

/-- C2: when `UnmarshalJSON` decodes a JSON boolean literal, or decodes an
object without error, the receiver ends with `Valid = Bool`; decoding the
object with fields `Bool = false, Valid = true` leaves the receiver invalid,
and a `null` literal leaves `Valid = false` and succeeds. -/
theorem C2_unmarshalJSON_valid_eq_bool (b : ZBool) (x : GoBool)
    (fields : List (String × Json)) :
    ((ZBool.UnmarshalJSON (Except.ok (Json.bool x)) b).2.Valid =
      (ZBool.UnmarshalJSON (Except.ok (Json.bool x)) b).2.Bool) ∧
    ((ZBool.UnmarshalJSON (Except.ok (Json.obj fields)) b).1 = Except.ok () →
      (ZBool.UnmarshalJSON (Except.ok (Json.obj fields)) b).2.Valid =
        (ZBool.UnmarshalJSON (Except.ok (Json.obj fields)) b).2.Bool) ∧
    ((ZBool.UnmarshalJSON
        (Except.ok (Json.obj [("Bool", Json.bool false), ("Valid", Json.bool true)]))
        b).2.Valid = false) ∧
    (ZBool.UnmarshalJSON (Except.ok Json.null) b).1 = Except.ok () ∧
    (ZBool.UnmarshalJSON (Except.ok Json.null) b).2.Valid = false := by
  refine ⟨?_, ?_, rfl, rfl, rfl⟩
  · cases x <;> rfl
  · intro h
    show (errIsNil (unmarshalNullBool fields b).1 && (unmarshalNullBool fields b).2.Bool)
        = (unmarshalNullBool fields b).2.Bool
    have h1 : (unmarshalNullBool fields b).1 = Except.ok () := h
    rw [h1]
    exact Bool.true_and _

/-- C2 witness: the object-decode conjunct applied at the object
`[("Bool", true)]` and the receiver `(false, false)`. -/
theorem C2_unmarshalJSON_valid_eq_bool_witness :
    (ZBool.UnmarshalJSON (Except.ok (Json.obj [("Bool", Json.bool true)]))
        (ZBool.mk false false)).2.Valid =
      (ZBool.UnmarshalJSON (Except.ok (Json.obj [("Bool", Json.bool true)]))
        (ZBool.mk false false)).2.Bool :=
  (C2_unmarshalJSON_valid_eq_bool (ZBool.mk false false) true
      [("Bool", Json.bool true)]).2.1 rfl

/-- C3: `UnmarshalText` succeeds exactly on `""`, `"null"`, `"true"`,
`"false"`: the first two set `Valid = false`, `"true"` yields a valid true
value, `"false"` yields `Bool = false` with final `Valid = false`, and any
other input returns the `invalid input:` error carrying the offending text
and leaves the receiver with `Valid = false`. -/
theorem C3_unmarshalText_literals (b : ZBool) (s : String) :
    ZBool.UnmarshalText "" b = (Except.ok (), { b with Valid := false }) ∧
    ZBool.UnmarshalText "null" b = (Except.ok (), { b with Valid := false }) ∧
    ZBool.UnmarshalText "true" b = (Except.ok (), ZBool.mk true true) ∧
    ZBool.UnmarshalText "false" b = (Except.ok (), ZBool.mk false false) ∧
    (s ≠ "" → s ≠ "null" → s ≠ "true" → s ≠ "false" →
      ZBool.UnmarshalText s b =
        (Except.error ("invalid input:" ++ s), { b with Valid := false })) := by
  refine ⟨rfl, rfl, rfl, rfl, ?_⟩
  intro h1 h2 h3 h4
  simp [ZBool.UnmarshalText, h1, h2, h3, h4]

/-- C3 witness: the error conjunct applied at the text `"maybe"` and the
receiver `(true, true)`. -/
theorem C3_unmarshalText_literals_witness :
    ZBool.UnmarshalText "maybe" (ZBool.mk true true) =
      (Except.error ("invalid input:" ++ "maybe"), ZBool.mk true false) :=
  (C3_unmarshalText_literals (ZBool.mk true true) "maybe").2.2.2.2
    (by decide) (by decide) (by decide) (by decide)

/-- C4: `AND`, `OR` and `XOR` return `(false, false)` whenever either operand
is invalid, and a valid result with the conjunction, disjunction and
exclusive-or of the operand values respectively when both are valid. -/
theorem C4_algebra_propagates_invalid (a : ZBool) (b : ZBool) :
    a.AND b = (if a.Valid && b.Valid then ZBool.mk (a.Bool && b.Bool) true
               else ZBool.mk false false) ∧
    a.OR b = (if a.Valid && b.Valid then ZBool.mk (a.Bool || b.Bool) true
              else ZBool.mk false false) ∧
    a.XOR b = (if a.Valid && b.Valid
               then ZBool.mk ((a.Bool || b.Bool) && !(a.Bool && b.Bool)) true
               else ZBool.mk false false) := by
  rcases a with ⟨x, v⟩
  rcases b with ⟨y, w⟩
  cases x <;> cases v <;> cases y <;> cases w <;> exact ⟨rfl, rfl, rfl⟩

/-- C5: the truth table of `BoolFromString`: `""` maps to `(false, true)`,
the four true spellings to `(true, true)`, the four false spellings to
`(false, true)`, and every other string to `(false, false)`. -/
theorem C5_BoolFromString_table (s : String) :
    BoolFromString "" = ZBool.mk false true ∧
    BoolFromString "1" = ZBool.mk true true ∧
    BoolFromString "true" = ZBool.mk true true ∧
    BoolFromString "True" = ZBool.mk true true ∧
    BoolFromString "TRUE" = ZBool.mk true true ∧
    BoolFromString "0" = ZBool.mk false true ∧
    BoolFromString "false" = ZBool.mk false true ∧
    BoolFromString "False" = ZBool.mk false true ∧
    BoolFromString "FALSE" = ZBool.mk false true ∧
    (s ≠ "" → s ≠ "1" → s ≠ "true" → s ≠ "True" → s ≠ "TRUE" →
     s ≠ "0" → s ≠ "false" → s ≠ "False" → s ≠ "FALSE" →
      BoolFromString s = ZBool.mk false false) := by
  refine ⟨rfl, rfl, rfl, rfl, rfl, rfl, rfl, rfl, rfl, ?_⟩
  intro h1 h2 h3 h4 h5 h6 h7 h8 h9
  simp [BoolFromString, h1, h2, h3, h4, h5, h6, h7, h8, h9, NewBool]

/-- C5 witness: the default conjunct applied at `"yes"`. -/
theorem C5_BoolFromString_table_witness :
    BoolFromString "yes" = ZBool.mk false false :=
  (C5_BoolFromString_table "yes").2.2.2.2.2.2.2.2.2
    (by decide) (by decide) (by decide) (by decide) (by decide)
    (by decide) (by decide) (by decide) (by decide)

/-- C6: `NewBoolFromString` returns `(false, false)` whenever the `valid`
argument is false; with `valid = true` it is case-sensitive: `""` maps to
`(false, false)`, `"1"`/`"true"` to `(true, true)`, `"0"`/`"false"` to
`(false, true)`, and every other string (including `"True"`) to
`(false, false)`. -/
theorem C6_NewBoolFromString_table (s : String) (t : String) :
    NewBoolFromString s false = ZBool.mk false false ∧
    NewBoolFromString "" true = ZBool.mk false false ∧
    NewBoolFromString "1" true = ZBool.mk true true ∧
    NewBoolFromString "true" true = ZBool.mk true true ∧
    NewBoolFromString "0" true = ZBool.mk false true ∧
    NewBoolFromString "false" true = ZBool.mk false true ∧
    NewBoolFromString "True" true = ZBool.mk false false ∧
    (t ≠ "" → t ≠ "1" → t ≠ "true" → t ≠ "0" → t ≠ "false" →
      NewBoolFromString t true = ZBool.mk false false) := by
  refine ⟨rfl, rfl, rfl, rfl, rfl, rfl, rfl, ?_⟩
  intro h1 h2 h3 h4 h5
  simp [NewBoolFromString, h1, h2, h3, h4, h5, NewBool]

/-- C6 witness: the default conjunct applied at `"yes"`. -/
theorem C6_NewBoolFromString_table_witness :
    NewBoolFromString "yes" true = ZBool.mk false false :=
  (C6_NewBoolFromString_table "yes" "yes").2.2.2.2.2.2.2
    (by decide) (by decide) (by decide) (by decide) (by decide)

/-- C7 counterexample: decoding the JSON node `42` produces an error whose
embedded `reflect` type name is `float64`, which is not one of Go's integer
kind names — the message does not name an integer-like kind. -/
theorem C7_counterexample_float64 :
    (ZBool.UnmarshalJSON (Except.ok (Json.num 42)) (ZBool.mk false false)).1 =
      Except.error ("json: cannot unmarshal " ++ reflectTypeName (Json.num 42) ++
        " into Go value of type zero.Bool") ∧
    reflectTypeName (Json.num 42) = "float64" ∧
    reflectTypeName (Json.num 42) ∉ goIntegerKindNames :=
  ⟨rfl, rfl, by decide⟩

/-- C7 amended: on a node that is neither a boolean, an object, nor `null`,
`UnmarshalJSON` returns an error whose message embeds `reflect.TypeOf`'s name
of the decoded Go value — `float64` for every number (including `42`),
`string` for a string, and the empty string for an array — and the receiver
ends with `Valid = false` and `Bool` unchanged. -/
theorem C7_amended_typeMismatch (b : ZBool) (q : Rat) (s : String)
    (xs : List Json) :
    ZBool.UnmarshalJSON (Except.ok (Json.num q)) b =
      (Except.error "json: cannot unmarshal float64 into Go value of type zero.Bool",
        { b with Valid := false }) ∧
    ZBool.UnmarshalJSON (Except.ok (Json.str s)) b =
      (Except.error "json: cannot unmarshal string into Go value of type zero.Bool",
        { b with Valid := false }) ∧
    ZBool.UnmarshalJSON (Except.ok (Json.arr xs)) b =
      (Except.error "json: cannot unmarshal  into Go value of type zero.Bool",
        { b with Valid := false }) :=
  ⟨rfl, rfl, rfl⟩

/-- C8: `NON` is a no-op on an invalid receiver and flips only `Bool`,
leaving `Valid` unchanged, on a valid one. -/
theorem C8_NON_flips_only_if_valid (b : ZBool) :
    b.NON = if b.Valid then ZBool.mk (!b.Bool) b.Valid else b := by
  rcases b with ⟨x, v⟩
  cases x <;> cases v <;> rfl

/-- C9: when the input bytes are not syntactically valid JSON,
`UnmarshalJSON` returns the underlying parse error and leaves both fields of
the receiver exactly as they were. -/
theorem C9_parse_error_leaves_receiver (b : ZBool) (e : String) :
    ZBool.UnmarshalJSON (Except.error e) b = (Except.error e, b) :=
  rfl

/-- C10: applying `NON` twice restores the receiver exactly, whether it was
valid or invalid. -/
theorem C10_NON_involutive (b : ZBool) :
    b.NON.NON = b := by
  rcases b with ⟨x, v⟩
  cases x <;> cases v <;> rfl
